import Mathlib

/-!
Verification of the vendor-voice aggregate-rating and authorization core.

This development shallowly embeds the SQL schema, the row-level policies and
the trigger functions of the repository's two migration variants, together
with the client-side vendor statistics computation, and settles the spec's
testable properties against them.

`EnumSchema` models the enum-typed migration (Postgres enum types for
category, status and role, `ratings.customer_id`, `vendors.average_rating` /
`total_ratings`, the `update_vendor_rating` trigger); it is the variant the
generated database type declarations reflect.  `TextSchema` models the
alternate text-with-check-constraint migration (`profiles.user_type`,
`ratings.reviewer_id`, `ON DELETE SET NULL` / `ON DELETE CASCADE` referential
actions, and the `handle_new_user` provisioning trigger).

Rows are records over `Nat` ids, `Int` ratings, `ℚ` for the `DECIMAL(2,1)`
aggregate and `Option` for nullable columns; tables are lists of rows; each
SQL statement is a function from database states to a database state paired
with an optional error, where an error leaves the state unchanged (the
statement aborts).  Timestamp columns are plain `Nat` clock values supplied
by the caller as `now`.  Columns that no modelled operation reads or writes
(free-text vendor descriptions, `created_at` on rows whose lifecycle is not
at issue) are elided.
-/

/-- Error taxonomy of the spec: validation, conflict, authorization and
foreign-key failures surfaced by a rejected operation. -/
inductive DbError where
  | ValidationError
  | ConflictError
  | AuthorizationError
  | FKViolation
  deriving Repr, DecidableEq

/-- `ROUND(x::numeric, 1)`: Postgres numeric rounding to one decimal place,
half away from zero.  Every quantity rounded in this development is an
average of ratings in [1,5], hence nonnegative, where half away from zero
coincides with the half-up rounding written here. -/
def round1 (q : ℚ) : ℚ := ((⌊q * 10 + 1/2⌋ : ℤ) : ℚ) / 10

namespace EnumSchema

/-- `public.user_role`. -/
inductive Role where
  | consumer
  | vendor
  | authority
  | admin
  deriving Repr, DecidableEq

/-- `public.complaint_status`. -/
inductive ComplaintStatus where
  | pending
  | investigating
  | resolved
  | dismissed
  deriving Repr, DecidableEq

/-- `public.complaint_category`. -/
inductive ComplaintCategory where
  | food_quality
  | pricing
  | hygiene
  | location_issue
  | licensing
  | other
  deriving Repr, DecidableEq

/-- A row of `public.profiles`. -/
structure ProfileRow where
  id : Nat
  user_id : Nat
  full_name : String
  phone : Option String
  area_id : Option Nat
  role : Role
  is_verified : Bool
  deriving Repr, DecidableEq

/-- A row of `public.vendors`; `average_rating` is the nullable
`DECIMAL(2,1)` column and `total_ratings` the `INTEGER` column. -/
structure VendorRow where
  id : Nat
  profile_id : Nat
  business_name : String
  license_number : Option String
  area_id : Nat
  average_rating : Option ℚ
  total_ratings : Int
  deriving Repr, DecidableEq

/-- A row of `public.complaints`. -/
structure ComplaintRow where
  id : Nat
  complainant_id : Nat
  vendor_id : Option Nat
  area_id : Nat
  category : ComplaintCategory
  title : String
  description : String
  status : ComplaintStatus
  priority : Int
  assigned_to : Option Nat
  resolution_notes : Option String
  resolved_at : Option Nat
  created_at : Nat
  updated_at : Nat
  deriving Repr, DecidableEq

/-- A row of `public.ratings`. -/
structure RatingRow where
  id : Nat
  vendor_id : Nat
  customer_id : Nat
  rating : Int
  review : Option String
  food_quality_rating : Option Int
  price_rating : Option Int
  hygiene_rating : Option Int
  deriving Repr, DecidableEq

/-- The database state: the four mutable tables (areas are plain `Nat`
ids referenced by the rows). -/
structure DB where
  profiles : List ProfileRow
  vendors : List VendorRow
  complaints : List ComplaintRow
  ratings : List RatingRow
  deriving Repr, DecidableEq

/-- `SELECT rating FROM public.ratings WHERE vendor_id = v`. -/
def ratingsOfVendor (ratings : List RatingRow) (v : Nat) : List Int :=
  (ratings.filter (fun r => r.vendor_id == v)).map (fun r => r.rating)

/-- Body of the `UPDATE public.vendors SET ... WHERE id = v` statement inside
`update_vendor_rating`: `average_rating` becomes
`ROUND(AVG(rating)::numeric, 1)` over the vendor's current rating rows (SQL
`AVG` over zero rows is NULL, so the column is set to NULL then), and
`total_ratings` becomes their `COUNT(*)`. -/
def recomputeVendor (ratings : List RatingRow) (v : Nat) (w : VendorRow) : VendorRow :=
  let rs := ratingsOfVendor ratings v
  { w with
    average_rating :=
      if rs.length = 0 then none
      else some (round1 (((rs.sum : ℤ) : ℚ) / (rs.length : ℚ))),
    total_ratings := (rs.length : Int) }

/-- The `update_vendor_rating` trigger function, applied for the vendor id
`COALESCE(NEW.vendor_id, OLD.vendor_id)` passed by each call site: the
vendors row with that id gets its stored aggregates recomputed from the
current ratings table. -/
def update_vendor_rating (ratings : List RatingRow) (vendors : List VendorRow) (v : Nat) :
    List VendorRow :=
  vendors.map (fun w => if w.id == v then recomputeVendor ratings v w else w)

/-- CHECK constraint of an optional sub-rating column: a NULL value passes;
a present value must lie in [1,5]. -/
def subRatingOk : Option Int → Bool
  | none => true
  | some v => decide (1 ≤ v) && decide (v ≤ 5)

/-- The CHECK constraints of `public.ratings`: `rating >= 1 AND rating <= 5`
and the three optional sub-rating checks. -/
def ratingRowOk (r : RatingRow) : Bool :=
  (decide (1 ≤ r.rating) && decide (r.rating ≤ 5)) &&
  subRatingOk r.food_quality_rating && subRatingOk r.price_rating &&
  subRatingOk r.hygiene_rating

/-- Foreign keys of `public.ratings`: `vendor_id REFERENCES vendors(id)` and
`customer_id REFERENCES profiles(id)`. -/
def ratingFKOk (db : DB) (r : RatingRow) : Bool :=
  db.vendors.any (fun w => w.id == r.vendor_id) &&
  db.profiles.any (fun p => p.id == r.customer_id)

/-- `INSERT INTO public.ratings`: the CHECK constraints, the
`UNIQUE(vendor_id, customer_id)` index, the foreign keys, and then the
`update_vendor_rating_trigger` (AFTER INSERT FOR EACH ROW), whose target
vendor is `COALESCE(NEW.vendor_id, OLD.vendor_id) = NEW.vendor_id`.  A
violated constraint aborts the statement, leaving the database unchanged. -/
def insertRating (db : DB) (r : RatingRow) : DB × Option DbError :=
  if ratingRowOk r = false then (db, some DbError.ValidationError)
  else if db.ratings.any (fun x => x.vendor_id == r.vendor_id && x.customer_id == r.customer_id) then
    (db, some DbError.ConflictError)
  else if ratingFKOk db r = false then (db, some DbError.FKViolation)
  else
    let ratings' := db.ratings ++ [r]
    ({ db with ratings := ratings',
               vendors := update_vendor_rating ratings' db.vendors r.vendor_id }, none)

/-- `UPDATE public.ratings ... WHERE id = rid` (`upd` supplies the new column
values; the primary key is never changed).  The CHECK constraints, the
unique pair index against the remaining rows and the foreign keys are
re-checked, then `update_vendor_rating_trigger` (AFTER UPDATE FOR EACH ROW)
fires for `COALESCE(NEW.vendor_id, OLD.vendor_id) = NEW.vendor_id` — the
vendor of the row's new values only. -/
def updateRating (db : DB) (rid : Nat) (upd : RatingRow → RatingRow) : DB × Option DbError :=
  match db.ratings.find? (fun x => x.id == rid) with
  | none => (db, none)
  | some old =>
    let r' := { upd old with id := old.id }
    if ratingRowOk r' = false then (db, some DbError.ValidationError)
    else if db.ratings.any (fun x =>
        !(x.id == rid) && x.vendor_id == r'.vendor_id && x.customer_id == r'.customer_id) then
      (db, some DbError.ConflictError)
    else if ratingFKOk db r' = false then (db, some DbError.FKViolation)
    else
      let ratings' := db.ratings.map (fun x => if x.id == rid then r' else x)
      ({ db with ratings := ratings',
                 vendors := update_vendor_rating ratings' db.vendors r'.vendor_id }, none)

/-- `DELETE FROM public.ratings WHERE id = rid`, firing
`update_vendor_rating_trigger` (AFTER DELETE FOR EACH ROW) for
`COALESCE(NEW.vendor_id, OLD.vendor_id) = OLD.vendor_id`. -/
def deleteRating (db : DB) (rid : Nat) : DB × Option DbError :=
  match db.ratings.find? (fun x => x.id == rid) with
  | none => (db, none)
  | some old =>
    let ratings' := db.ratings.filter (fun x => !(x.id == rid))
    ({ db with ratings := ratings',
               vendors := update_vendor_rating ratings' db.vendors old.vendor_id }, none)

/-- A mutation of the ratings table: insert a row, update the row with a
given id, or delete the row with a given id. -/
inductive RatingOp where
  | ins (r : RatingRow)
  | upd (rid : Nat) (f : RatingRow → RatingRow)
  | del (rid : Nat)

def runRatingOp (db : DB) : RatingOp → DB × Option DbError
  | RatingOp.ins r => insertRating db r
  | RatingOp.upd rid f => updateRating db rid f
  | RatingOp.del rid => deleteRating db rid

/-- The vendor id the `update_vendor_rating_trigger` recomputes for an
operation, `COALESCE(NEW.vendor_id, OLD.vendor_id)`: the inserted or updated
row's new vendor id, or the deleted row's old vendor id; `none` when no row
is affected (so no trigger fires). -/
def affectedVendor (db : DB) : RatingOp → Option Nat
  | RatingOp.ins r => some r.vendor_id
  | RatingOp.upd rid f =>
      (db.ratings.find? (fun x => x.id == rid)).map
        (fun old => ({ f old with id := old.id } : RatingRow).vendor_id)
  | RatingOp.del rid =>
      (db.ratings.find? (fun x => x.id == rid)).map (fun old => old.vendor_id)

def vendorById (vendors : List VendorRow) (v : Nat) : Option VendorRow :=
  vendors.find? (fun w => w.id == v)

def complaintById (db : DB) (cid : Nat) : Option ComplaintRow :=
  db.complaints.find? (fun c => c.id == cid)

/-- The caller `uid` owns profile `pid`: the ownership join
`profiles.id = pid AND profiles.user_id = auth.uid()` used by the policies. -/
def ownsProfile (db : DB) (uid pid : Nat) : Bool :=
  db.profiles.any (fun p => p.id == pid && p.user_id == uid)

/-- RLS policy "Authorities can update complaints" — the only UPDATE policy
on `public.complaints` in this schema variant: the caller has a profile with
role `authority` or `admin`.  The complaint row itself is not consulted. -/
def authoritiesCanUpdateComplaints (db : DB) (uid : Nat) : Bool :=
  db.profiles.any (fun p =>
    p.user_id == uid && (p.role == Role.authority || p.role == Role.admin))

/-- RLS policy "Users can file complaints": the caller owns the profile
supplied as `complainant_id`. -/
def usersCanFileComplaints (db : DB) (uid complainant : Nat) : Bool :=
  ownsProfile db uid complainant

/-- Filing a complaint (the complaint-form submission path): inserts title,
description, category, area, priority, complainant and optional vendor; the
unsupplied columns take their schema defaults — `status` 'pending' and NULL
`assigned_to`, `resolution_notes`, `resolved_at` — and the timestamps are
`now()`. -/
def fileComplaint (db : DB) (uid complainant : Nat) (vendor : Option Nat) (area : Nat)
    (category : ComplaintCategory) (title description : String) (priority : Int)
    (cid now : Nat) : DB × Option DbError :=
  if usersCanFileComplaints db uid complainant = false then
    (db, some DbError.AuthorizationError)
  else
    let row : ComplaintRow :=
      { id := cid, complainant_id := complainant, vendor_id := vendor, area_id := area,
        category := category, title := title, description := description,
        status := ComplaintStatus.pending, priority := priority, assigned_to := none,
        resolution_notes := none, resolved_at := none,
        created_at := now, updated_at := now }
    ({ db with complaints := db.complaints ++ [row] }, none)

/-- `UPDATE public.complaints ... WHERE id = cid` under this variant's policy
set, whose only UPDATE policy is "Authorities can update complaints".  An
update the policy does not grant is rejected and the row left unchanged
(surfaced as an authorization failure, per the spec's error taxonomy).  An
allowed update applies the new column values and the
`update_complaints_updated_at` trigger (`updated_at = now()`); the primary
key is never changed. -/
def updateComplaint (db : DB) (uid cid : Nat) (upd : ComplaintRow → ComplaintRow) (now : Nat) :
    DB × Option DbError :=
  match db.complaints.find? (fun c => c.id == cid) with
  | none => (db, none)
  | some _ =>
    if authoritiesCanUpdateComplaints db uid then
      let complaints' := db.complaints.map
        (fun c => if c.id == cid then { upd c with id := c.id, updated_at := now } else c)
      ({ db with complaints := complaints' }, none)
    else (db, some DbError.AuthorizationError)

/-- `DELETE FROM public.vendors WHERE id = v` under this schema variant:
`complaints.vendor_id` and `ratings.vendor_id` both declare a plain
`REFERENCES public.vendors(id)` with no ON DELETE action, so deleting a
still-referenced vendor is rejected by the foreign keys and the database is
unchanged. -/
def deleteVendor (db : DB) (v : Nat) : DB × Option DbError :=
  if db.complaints.any (fun c => c.vendor_id == some v) ||
     db.ratings.any (fun r => r.vendor_id == v) then
    (db, some DbError.FKViolation)
  else
    ({ db with vendors := db.vendors.filter (fun w => !(w.id == v)) }, none)

end EnumSchema

namespace TextSchema

/-- A row of `auth.users` as consumed by `handle_new_user`: the identity's
id, the `raw_user_meta_data ->> 'full_name'` entry and the phone. -/
structure UserRow where
  id : Nat
  full_name_meta : Option String
  phone : Option String
  deriving Repr, DecidableEq

/-- A row of `public.profiles` in the text-schema variant (`user_type` is a
text column with `CHECK (user_type IN ('consumer', 'vendor', 'admin'))`). -/
structure ProfileRow where
  id : Nat
  user_id : Nat
  full_name : String
  phone : Option String
  area_id : Option Nat
  user_type : String
  deriving Repr, DecidableEq

/-- A row of `public.vendors` in the text-schema variant. -/
structure VendorRow where
  id : Nat
  profile_id : Nat
  business_name : String
  food_type : String
  location_details : String
  area_id : Nat
  license_number : Option String
  is_verified : Bool
  deriving Repr, DecidableEq

/-- A row of `public.complaints` in the text-schema variant (`complaint_type`,
`status` and `priority` are text columns with CHECK constraints). -/
structure ComplaintRow where
  id : Nat
  complainant_id : Nat
  vendor_id : Option Nat
  area_id : Nat
  title : String
  description : String
  complaint_type : String
  status : String
  priority : String
  created_at : Nat
  updated_at : Nat
  deriving Repr, DecidableEq

/-- A row of `public.ratings` in the text-schema variant (the reviewer
column is `reviewer_id`, the review text `review_text`). -/
structure RatingRow where
  id : Nat
  reviewer_id : Nat
  vendor_id : Nat
  rating : Int
  review_text : Option String
  food_quality_rating : Option Int
  price_rating : Option Int
  hygiene_rating : Option Int
  deriving Repr, DecidableEq

/-- The database state of the text-schema variant, including `auth.users`
(carried because the `on_auth_user_created` trigger hangs off it) and a
fresh-id counter standing in for `gen_random_uuid()` on profiles. -/
structure DB where
  users : List UserRow
  profiles : List ProfileRow
  vendors : List VendorRow
  complaints : List ComplaintRow
  ratings : List RatingRow
  nextProfileId : Nat
  deriving Repr, DecidableEq

/-- The `handle_new_user` trigger function:
`INSERT INTO public.profiles (user_id, full_name, phone) VALUES (NEW.id,
COALESCE(NEW.raw_user_meta_data ->> 'full_name', 'User'), NEW.phone)`; the
unsupplied columns take their defaults — `user_type` 'consumer', NULL
`area_id`, a generated primary key.  The insert is subject to the UNIQUE
constraint on `profiles.user_id`. -/
def handle_new_user (db : DB) (u : UserRow) : DB × Option DbError :=
  if db.profiles.any (fun p => p.user_id == u.id) then (db, some DbError.ConflictError)
  else
    let p : ProfileRow :=
      { id := db.nextProfileId, user_id := u.id,
        full_name := u.full_name_meta.getD "User", phone := u.phone,
        area_id := none, user_type := "consumer" }
    ({ db with profiles := db.profiles ++ [p], nextProfileId := db.nextProfileId + 1 }, none)

/-- Creation of a new identity: `INSERT INTO auth.users` (with its primary
key), after which the `on_auth_user_created` AFTER INSERT trigger runs
`handle_new_user` inside the same transaction.  The trigger function has no
EXCEPTION handler, so an error raised by the profile insert aborts the
surrounding statement and the identity row is not created. -/
def signup (db : DB) (u : UserRow) : DB × Option DbError :=
  if db.users.any (fun x => x.id == u.id) then (db, some DbError.ConflictError)
  else
    match handle_new_user { db with users := db.users ++ [u] } u with
    | (db2, none) => (db2, none)
    | (_, some e) => (db, some e)

/-- RLS policy "Complainants can update their complaints" — the only UPDATE
policy on `public.complaints` in this variant: the caller owns the profile
referenced by the row's `complainant_id`. -/
def complainantsCanUpdateComplaints (db : DB) (uid : Nat) (c : ComplaintRow) : Bool :=
  db.profiles.any (fun p => p.id == c.complainant_id && p.user_id == uid)

/-- `UPDATE public.complaints ... WHERE id = cid` under this variant's policy
set ("Complainants can update their complaints", a USING-only policy).
Postgres evaluates the USING clause against the existing row and — since the
policy declares no separate WITH CHECK — re-applies the same clause to the
new row, so an update whose new values reference a complainant profile the
caller does not own is rejected as well ("new row violates row-level
security policy").  A denied update is rejected with the row unchanged; an
allowed one applies the new values and the `update_complaints_updated_at`
trigger. -/
def updateComplaint (db : DB) (uid cid : Nat) (upd : ComplaintRow → ComplaintRow) (now : Nat) :
    DB × Option DbError :=
  match db.complaints.find? (fun c => c.id == cid) with
  | none => (db, none)
  | some c =>
    if complainantsCanUpdateComplaints db uid c then
      if complainantsCanUpdateComplaints db uid { upd c with id := c.id, updated_at := now } then
        let complaints' := db.complaints.map
          (fun x => if x.id == cid then { upd x with id := x.id, updated_at := now } else x)
        ({ db with complaints := complaints' }, none)
      else (db, some DbError.AuthorizationError)
    else (db, some DbError.AuthorizationError)

/-- `DELETE FROM public.vendors WHERE id = v` under this schema variant:
`ratings.vendor_id` declares ON DELETE CASCADE, so the vendor's rating rows
are deleted with it, and `complaints.vendor_id` declares ON DELETE SET NULL,
so each referencing complaint keeps all its data but loses the vendor
reference — the referential UPDATE also fires
`update_complaints_updated_at`, refreshing `updated_at` on those rows. -/
def deleteVendor (db : DB) (v now : Nat) : DB :=
  { db with
    vendors := db.vendors.filter (fun w => !(w.id == v)),
    ratings := db.ratings.filter (fun r => !(r.vendor_id == v)),
    complaints := db.complaints.map
      (fun c => if c.vendor_id == some v then { c with vendor_id := none, updated_at := now }
                else c) }

end TextSchema

namespace VendorsPage

open EnumSchema

/-- The vendor-list view's per-vendor statistic
`totalRatings = ratings?.length || 0`, over the rating rows fetched for the
vendor (`SELECT rating FROM ratings WHERE vendor_id = v`). -/
def totalRatings (ratings : List RatingRow) (v : Nat) : Nat :=
  (ratings.filter (fun r => r.vendor_id == v)).length

/-- The vendor-list view's per-vendor statistic `averageRating =
totalRatings > 0 ? ratings.reduce((sum, r) => sum + r.rating, 0) /
totalRatings : 0`.  The arithmetic is modelled exactly over ℚ: the summands
are integers in [1,5], so the JavaScript sum is exact and the quotient is
the exact, unrounded mean. -/
def averageRating (ratings : List RatingRow) (v : Nat) : ℚ :=
  let rs := ratings.filter (fun r => r.vendor_id == v)
  if rs.length > 0 then (rs.foldl (fun sum r => sum + (r.rating : ℚ)) 0) / (rs.length : ℚ)
  else 0

end VendorsPage

namespace EnumSchema

/-- Spec-side counterpart for the displayed average, written from the claim's
words: the exact (unrounded) arithmetic mean of the vendor's rating values,
or 0 when there are none. -/
def specDisplayedAverage (ratings : List RatingRow) (v : Nat) : ℚ :=
  let rs := ratingsOfVendor ratings v
  if rs = [] then 0 else ((rs.sum : ℤ) : ℚ) / (rs.length : ℚ)

/-- Spec-side counterpart of a sub-rating CHECK, written from the claim's
words: when non-null the value lies in [1,5]. -/
def subRatingInRange : Option Int → Prop
  | none => True
  | some v => 1 ≤ v ∧ v ≤ 5

instance (o : Option Int) : Decidable (subRatingInRange o) := by
  cases o with
  | none => exact isTrue trivial
  | some v => exact instDecidableAnd

end EnumSchema

namespace Fixtures

open EnumSchema

/-- A consumer profile owned by caller identity 42. -/
def p7 : ProfileRow :=
  { id := 7, user_id := 42, full_name := "Asha", phone := none, area_id := none,
    role := Role.consumer, is_verified := false }

/-- An authority profile owned by caller identity 43. -/
def p8 : ProfileRow :=
  { id := 8, user_id := 43, full_name := "Inspector", phone := none, area_id := none,
    role := Role.authority, is_verified := false }

/-- Vendor 1 with the schema-default aggregates (0.0 / 0). -/
def v1 : VendorRow :=
  { id := 1, profile_id := 7, business_name := "Chaat Corner", license_number := none,
    area_id := 3, average_rating := some 0, total_ratings := 0 }

/-- Vendor 2 with the schema-default aggregates. -/
def v2 : VendorRow :=
  { id := 2, profile_id := 7, business_name := "Dosa Cart", license_number := none,
    area_id := 3, average_rating := some 0, total_ratings := 0 }

/-- Vendor 1 after one rating of 4 has been aggregated. -/
def v1rated : VendorRow := { v1 with average_rating := some 4, total_ratings := 1 }

/-- A rating of 4 for vendor 1 by profile 7. -/
def r10 : RatingRow :=
  { id := 10, vendor_id := 1, customer_id := 7, rating := 4, review := none,
    food_quality_rating := none, price_rating := none, hygiene_rating := none }

/-- A second rating for the same (vendor, reviewer) pair as `r10`. -/
def r11 : RatingRow :=
  { id := 11, vendor_id := 1, customer_id := 7, rating := 5, review := none,
    food_quality_rating := none, price_rating := none, hygiene_rating := none }

/-- An empty-ratings state holding vendor 1 and profile 7. -/
def dbIns : DB := { profiles := [p7], vendors := [v1], complaints := [], ratings := [] }

/-- A consistent state where vendor 1 carries exactly the rating `r10` and a
second vendor exists; starting point for the re-targeting update. -/
def dbTwoVendors : DB :=
  { profiles := [p7], vendors := [v1rated, v2], complaints := [], ratings := [r10] }

/-- A consistent state where vendor 1 carries exactly the rating `r10`. -/
def dbOneRating : DB :=
  { profiles := [p7], vendors := [v1rated], complaints := [], ratings := [r10] }

/-- The re-targeting update: `SET vendor_id = 2`. -/
def retarget : RatingRow → RatingRow := fun r => { r with vendor_id := 2 }

/-- Rating rows with overall score 0, 6, and an out-of-range sub-rating. -/
def rZero : RatingRow :=
  { id := 12, vendor_id := 1, customer_id := 7, rating := 0, review := none,
    food_quality_rating := none, price_rating := none, hygiene_rating := none }

def rSix : RatingRow := { rZero with rating := 6 }

def rSubZero : RatingRow := { rZero with rating := 3, food_quality_rating := some 0 }

def rGood : RatingRow :=
  { rZero with rating := 3, food_quality_rating := some 5, price_rating := some 1 }

/-- A pending complaint about vendor 1 filed by profile 7. -/
def c1 : ComplaintRow :=
  { id := 1, complainant_id := 7, vendor_id := some 1, area_id := 3,
    category := ComplaintCategory.hygiene, title := "Dirty stall",
    description := "Utensils unwashed", status := ComplaintStatus.pending, priority := 1,
    assigned_to := none, resolution_notes := none, resolved_at := none,
    created_at := 0, updated_at := 0 }

/-- A state with a consumer complainant, an authority, vendor 1 and the
pending complaint `c1`. -/
def dbComplaint : DB :=
  { profiles := [p7, p8], vendors := [v1], complaints := [c1], ratings := [] }

/-- Status-only complaint updates. -/
def investigate : ComplaintRow → ComplaintRow :=
  fun c => { c with status := ComplaintStatus.investigating }

def resolve : ComplaintRow → ComplaintRow :=
  fun c => { c with status := ComplaintStatus.resolved }

/-- `c1` after an authority set its status to resolved at time 99: terminal
status, `resolved_at` still NULL. -/
def c1resolved : ComplaintRow := { c1 with status := ComplaintStatus.resolved, updated_at := 99 }

/-- Three ratings for vendor 1 whose exact mean (13/3) is not expressible to
one decimal place. -/
def c10ratings : List RatingRow :=
  [{ id := 21, vendor_id := 1, customer_id := 7, rating := 4, review := none,
     food_quality_rating := none, price_rating := none, hygiene_rating := none },
   { id := 22, vendor_id := 1, customer_id := 8, rating := 4, review := none,
     food_quality_rating := none, price_rating := none, hygiene_rating := none },
   { id := 23, vendor_id := 1, customer_id := 9, rating := 5, review := none,
     food_quality_rating := none, price_rating := none, hygiene_rating := none }]

/-- Text-schema profile owned by identity 42. -/
def tP7 : TextSchema.ProfileRow :=
  { id := 7, user_id := 42, full_name := "Asha", phone := none, area_id := none,
    user_type := "consumer" }

def tV1 : TextSchema.VendorRow :=
  { id := 1, profile_id := 7, business_name := "Chaat Corner", food_type := "Chaat",
    location_details := "Near Bus Stand", area_id := 3, license_number := none,
    is_verified := false }

def tC1 : TextSchema.ComplaintRow :=
  { id := 1, complainant_id := 7, vendor_id := some 1, area_id := 3,
    title := "Dirty stall", description := "Utensils unwashed",
    complaint_type := "hygiene", status := "pending", priority := "medium",
    created_at := 0, updated_at := 0 }

def tR10 : TextSchema.RatingRow :=
  { id := 10, reviewer_id := 7, vendor_id := 1, rating := 4, review_text := none,
    food_quality_rating := none, price_rating := none, hygiene_rating := none }

/-- Text-schema state where vendor 1 is referenced by one complaint and one
rating. -/
def dbText : TextSchema.DB :=
  { users := [], profiles := [tP7], vendors := [tV1], complaints := [tC1],
    ratings := [tR10], nextProfileId := 8 }

/-- A new identity with a supplied display name and phone. -/
def u42 : TextSchema.UserRow := { id := 42, full_name_meta := some "Asha", phone := some "9990001111" }

/-- A profile row already occupying `user_id = 42` (no matching auth user):
makes the provisioning insert hit the UNIQUE constraint. -/
def strayProfile : TextSchema.ProfileRow :=
  { id := 5, user_id := 42, full_name := "Stray", phone := none, area_id := none,
    user_type := "consumer" }

/-- State in which identity 42 does not exist but a profile with
`user_id = 42` does. -/
def dbStray : TextSchema.DB :=
  { users := [], profiles := [strayProfile], vendors := [], complaints := [],
    ratings := [], nextProfileId := 6 }

/-- The empty text-schema state. -/
def dbEmpty : TextSchema.DB :=
  { users := [], profiles := [], vendors := [], complaints := [], ratings := [],
    nextProfileId := 1 }

/-- The profile `signup` provisions for `u42` from `dbEmpty`. -/
def p42new : TextSchema.ProfileRow :=
  { id := 1, user_id := 42, full_name := "Asha", phone := some "9990001111",
    area_id := none, user_type := "consumer" }

end Fixtures

open EnumSchema Fixtures

theorem subRatingOk_iff (o : Option Int) : subRatingOk o = true ↔ subRatingInRange o := by
  cases o with
  | none => simp [subRatingOk, subRatingInRange]
  | some v => simp [subRatingOk, subRatingInRange]

theorem ratingRowOk_iff (r : RatingRow) :
    ratingRowOk r = true ↔
      ((1 ≤ r.rating ∧ r.rating ≤ 5) ∧ subRatingInRange r.food_quality_rating ∧
        subRatingInRange r.price_rating ∧ subRatingInRange r.hygiene_rating) := by
  simp [ratingRowOk, subRatingOk_iff, and_assoc]

theorem recomputeVendor_spec (rats : List RatingRow) (v : Nat) (w : VendorRow) :
    (recomputeVendor rats v w).id = w.id ∧
    (recomputeVendor rats v w).total_ratings = ((ratingsOfVendor rats v).length : Int) ∧
    (ratingsOfVendor rats v ≠ [] →
      (recomputeVendor rats v w).average_rating =
        some (round1 ((((ratingsOfVendor rats v).sum : ℤ) : ℚ) /
          ((ratingsOfVendor rats v).length : ℚ)))) := by
  refine ⟨rfl, rfl, fun hne => ?_⟩
  have hlen : (ratingsOfVendor rats v).length ≠ 0 := by
    simpa [Nat.pos_iff_ne_zero] using List.length_pos.mpr hne
  simp [recomputeVendor, hlen]

theorem mem_update_vendor_rating (rats : List RatingRow) (vendors : List VendorRow)
    (v : Nat) (w : VendorRow) (hw : w ∈ update_vendor_rating rats vendors v) (hid : w.id = v) :
    w.total_ratings = ((ratingsOfVendor rats v).length : Int) ∧
    (ratingsOfVendor rats v ≠ [] →
      w.average_rating = some (round1 ((((ratingsOfVendor rats v).sum : ℤ) : ℚ) /
        ((ratingsOfVendor rats v).length : ℚ)))) := by
  rcases List.mem_map.mp hw with ⟨w0, hw0, hmap⟩
  by_cases h : w0.id = v
  · have hweq : w = recomputeVendor rats v w0 := by simp [← hmap, h]
    rw [hweq]
    exact ⟨(recomputeVendor_spec rats v w0).2.1, (recomputeVendor_spec rats v w0).2.2⟩
  · exfalso
    have hweq : w = w0 := by simp [← hmap, h]
    rw [hweq] at hid
    exact h hid

theorem insertRating_ok (db : DB) (r : RatingRow) (db' : DB)
    (h : insertRating db r = (db', none)) :
    db'.ratings = db.ratings ++ [r] ∧
    db'.vendors = update_vendor_rating (db.ratings ++ [r]) db.vendors r.vendor_id := by
  unfold insertRating at h
  split at h
  · simp at h
  · split at h
    · simp at h
    · split at h
      · simp at h
      · obtain ⟨h1, -⟩ := Prod.mk.injEq .. ▸ h
        subst h1
        exact ⟨rfl, rfl⟩

theorem updateRating_ok (db : DB) (rid : Nat) (f : RatingRow → RatingRow) (db' : DB)
    (old : RatingRow) (hfind : db.ratings.find? (fun x => x.id == rid) = some old)
    (h : updateRating db rid f = (db', none)) :
    db'.ratings = db.ratings.map
      (fun x => if x.id == rid then { f old with id := old.id } else x) ∧
    db'.vendors = update_vendor_rating db'.ratings db.vendors
      ({ f old with id := old.id } : RatingRow).vendor_id := by
  unfold updateRating at h
  rw [hfind] at h
  dsimp only at h
  split at h
  · simp at h
  · split at h
    · simp at h
    · split at h
      · simp at h
      · obtain ⟨h1, -⟩ := Prod.mk.injEq .. ▸ h
        subst h1
        exact ⟨rfl, rfl⟩

theorem deleteRating_ok (db : DB) (rid : Nat) (db' : DB)
    (old : RatingRow) (hfind : db.ratings.find? (fun x => x.id == rid) = some old)
    (h : deleteRating db rid = (db', none)) :
    db'.ratings = db.ratings.filter (fun x => !(x.id == rid)) ∧
    db'.vendors = update_vendor_rating db'.ratings db.vendors old.vendor_id := by
  unfold deleteRating at h
  rw [hfind] at h
  obtain ⟨h1, -⟩ := Prod.mk.injEq .. ▸ h
  subst h1
  exact ⟨rfl, rfl⟩

/-- C1: after a completed insert, update or delete of a rating row, the
stored aggregates of the affected vendor — the one the recomputation
targets, `COALESCE(NEW.vendor_id, OLD.vendor_id)` — match the current rating
rows: `total_ratings` is their count and, when the vendor has any rating
rows, `average_rating` is their arithmetic mean rounded to one decimal
place. -/
theorem update_vendor_rating_consistent (db db' : DB) (op : RatingOp) (V : Nat)
    (hV : affectedVendor db op = some V)
    (hrun : runRatingOp db op = (db', none)) :
    ∀ w ∈ db'.vendors, w.id = V →
      w.total_ratings = ((ratingsOfVendor db'.ratings V).length : Int) ∧
      (ratingsOfVendor db'.ratings V ≠ [] →
        w.average_rating = some (round1 ((((ratingsOfVendor db'.ratings V).sum : ℤ) : ℚ) /
          ((ratingsOfVendor db'.ratings V).length : ℚ)))) := by
  intro w hw hid
  cases op with
  | ins r =>
    have hV' : r.vendor_id = V := by simpa [affectedVendor] using hV
    obtain ⟨hr, hv⟩ := insertRating_ok db r db' hrun
    rw [hv, hV', ← hr] at hw
    exact mem_update_vendor_rating db'.ratings db.vendors V w hw hid
  | upd rid f =>
    simp only [affectedVendor] at hV
    cases hfind : db.ratings.find? (fun x => x.id == rid) with
    | none => rw [hfind] at hV; simp at hV
    | some old =>
      rw [hfind] at hV
      simp only [Option.map_some'] at hV
      obtain hV' := Option.some.inj hV
      obtain ⟨hr, hv⟩ := updateRating_ok db rid f db' old hfind hrun
      rw [hv, hV'] at hw
      exact mem_update_vendor_rating db'.ratings db.vendors V w hw hid
  | del rid =>
    simp only [affectedVendor] at hV
    cases hfind : db.ratings.find? (fun x => x.id == rid) with
    | none => rw [hfind] at hV; simp at hV
    | some old =>
      rw [hfind] at hV
      simp only [Option.map_some'] at hV
      obtain hV' := Option.some.inj hV
      obtain ⟨hr, hv⟩ := deleteRating_ok db rid db' old hfind hrun
      rw [hv, hV'] at hw
      exact mem_update_vendor_rating db'.ratings db.vendors V w hw hid


/-- C1 witness: inserting a rating of 4 for vendor 1 into the empty-ratings
state yields stored aggregates `total_ratings = 1`, `average_rating = 4.0`,
matching the recomputation over the single rating row. -/
theorem update_vendor_rating_consistent_witness :
    v1rated ∈ (runRatingOp dbIns (RatingOp.ins r10)).1.vendors ∧
    v1rated.total_ratings =
      ((ratingsOfVendor (runRatingOp dbIns (RatingOp.ins r10)).1.ratings 1).length : Int) ∧
    v1rated.average_rating = some 4 := by
  have hmem : v1rated ∈ (runRatingOp dbIns (RatingOp.ins r10)).1.vendors := by
    norm_num [runRatingOp, insertRating, dbIns, r10, v1, v1rated, p7, update_vendor_rating,
      recomputeVendor, ratingsOfVendor, ratingRowOk, subRatingOk, ratingFKOk, round1]
  have h := update_vendor_rating_consistent dbIns (runRatingOp dbIns (RatingOp.ins r10)).1
    (RatingOp.ins r10) 1 rfl rfl v1rated hmem (by decide)
  refine ⟨hmem, h.1, (h.2 (by decide)).trans ?_⟩
  norm_num [runRatingOp, insertRating, dbIns, r10, v1, p7, update_vendor_rating,
    recomputeVendor, ratingsOfVendor, ratingRowOk, subRatingOk, ratingFKOk, round1]

/-- C2: an update that re-targets rating `r10` from vendor 1 to vendor 2
completes, vendor 2's aggregates are recomputed, but vendor 1 — which now has
zero rating rows — still carries `total_ratings = 1`, `average_rating = 4.0`:
the trigger recomputes only `COALESCE(NEW.vendor_id, OLD.vendor_id)`, never
the old vendor. -/
theorem retarget_leaves_old_vendor_stale :
    (updateRating dbTwoVendors 10 retarget).2 = none ∧
    ratingsOfVendor (updateRating dbTwoVendors 10 retarget).1.ratings 1 = [] ∧
    vendorById (updateRating dbTwoVendors 10 retarget).1.vendors 1 = some v1rated ∧
    v1rated.total_ratings = 1 ∧
    vendorById (updateRating dbTwoVendors 10 retarget).1.vendors 2 =
      some { v2 with average_rating := some 4, total_ratings := 1 } := by
  norm_num [updateRating, dbTwoVendors, retarget, r10, v1, v2, v1rated, p7, vendorById,
    update_vendor_rating, recomputeVendor, ratingsOfVendor, ratingRowOk, subRatingOk,
    ratingFKOk, round1, List.find?]
  rfl

/-- C3: deleting vendor 1's last rating completes and the recomputation sets
`total_ratings` to 0 but `average_rating` to NULL — `ROUND(AVG(rating), 1)`
over zero rows — not to 0.0. -/
theorem delete_last_rating_sets_average_null :
    (deleteRating dbOneRating 10).2 = none ∧
    vendorById (deleteRating dbOneRating 10).1.vendors 1 =
      some { v1 with average_rating := none, total_ratings := 0 } ∧
    ¬ vendorById (deleteRating dbOneRating 10).1.vendors 1 =
      some { v1 with average_rating := some 0, total_ratings := 0 } := by
  norm_num [deleteRating, dbOneRating, r10, v1, v1rated, p7, vendorById,
    update_vendor_rating, recomputeVendor, ratingsOfVendor, round1, List.find?]
  simp

/-- C4: inserting a second rating row for a (vendor, customer) pair that
already has one is rejected by the `UNIQUE(vendor_id, customer_id)` index
with a conflict, and the database — in particular the original rating row —
is unchanged. -/
theorem duplicate_rating_rejected (db : DB) (r s : RatingRow)
    (hmem : s ∈ db.ratings) (hv : s.vendor_id = r.vendor_id)
    (hc : s.customer_id = r.customer_id) (hok : ratingRowOk r = true) :
    insertRating db r = (db, some DbError.ConflictError) := by
  have hdup : db.ratings.any
      (fun x => x.vendor_id == r.vendor_id && x.customer_id == r.customer_id) = true :=
    List.any_eq_true.mpr ⟨s, hmem, by simp [hv, hc]⟩
  simp [insertRating, hok, hdup]

/-- C4 witness: with `r10` (vendor 1, customer 7) present, inserting `r11`
for the same pair is rejected with a conflict and the state is unchanged. -/
theorem duplicate_rating_rejected_witness :
    insertRating dbOneRating r11 = (dbOneRating, some DbError.ConflictError) :=
  duplicate_rating_rejected dbOneRating r11 r10 (by decide) (by decide) (by decide) (by decide)

/-- C7: a rating insert is rejected with a validation failure exactly when
the overall rating lies outside [1,5] or some present sub-rating does; a row
passing those checks, with no duplicate pair and valid references, is
accepted. -/
theorem rating_range_enforced (db : DB) (r : RatingRow) :
    ((insertRating db r).2 = some DbError.ValidationError ↔
      ¬ ((1 ≤ r.rating ∧ r.rating ≤ 5) ∧ subRatingInRange r.food_quality_rating ∧
         subRatingInRange r.price_rating ∧ subRatingInRange r.hygiene_rating)) ∧
    (ratingRowOk r = true →
      db.ratings.any (fun x => x.vendor_id == r.vendor_id && x.customer_id == r.customer_id)
        = false →
      ratingFKOk db r = true →
      (insertRating db r).2 = none) := by
  constructor
  · rw [← ratingRowOk_iff]
    cases hok : ratingRowOk r with
    | false => simp [insertRating, hok]
    | true =>
      simp only [insertRating, hok]
      have hne : ¬ (true = false) := by simp
      rw [if_neg hne]
      simp only [not_true, iff_false]
      split
      · simp
      · split
        · simp
        · simp
  · intro h1 h2 h3
    simp [insertRating, h1, h2, h3]

/-- C7 witness: overall ratings 0 and 6 and a present sub-rating of 0 are
each rejected with a validation failure; a row with overall rating 3 and
sub-ratings 5 and 1 is accepted. -/
theorem rating_range_enforced_witness :
    (insertRating dbIns rZero).2 = some DbError.ValidationError ∧
    (insertRating dbIns rSix).2 = some DbError.ValidationError ∧
    (insertRating dbIns rSubZero).2 = some DbError.ValidationError ∧
    (insertRating dbIns rGood).2 = none := by
  refine ⟨?_, ?_, ?_, ?_⟩
  · exact (rating_range_enforced dbIns rZero).1.mpr (by decide)
  · exact (rating_range_enforced dbIns rSix).1.mpr (by decide)
  · exact (rating_range_enforced dbIns rSubZero).1.mpr (by decide)
  · exact (rating_range_enforced dbIns rGood).2 (by decide) (by decide) (by decide)

/-- C5 counterexample: caller 42 owns profile 7 — the complainant of
complaint 1 — and holds role consumer; under the enum-schema policy set the
update is nevertheless denied, so ownership of `complainant_id` does not
grant complaint updates there. -/
theorem complainant_owner_denied_update :
    complaintById dbComplaint 1 = some c1 ∧
    c1.complainant_id = 7 ∧
    ownsProfile dbComplaint 42 7 = true ∧
    authoritiesCanUpdateComplaints dbComplaint 42 = false ∧
    updateComplaint dbComplaint 42 1 investigate 99 =
      (dbComplaint, some DbError.AuthorizationError) :=
  ⟨rfl, rfl, rfl, rfl, rfl⟩

/-- C5 corrected: under the enum-schema policy set a complaint update
succeeds iff some profile of the caller has role authority or admin, and a
denied update leaves the database unchanged; under the text-schema policy
set — whose USING-only policy Postgres also re-applies as WITH CHECK to the
new row — it succeeds iff the caller owns the complainant profile referenced
by the existing row and the one referenced by the updated row. -/
theorem complaint_update_allowed_iff (db : DB) (uid cid : Nat)
    (upd : ComplaintRow → ComplaintRow) (now : Nat) (c : ComplaintRow)
    (hc : complaintById db cid = some c) :
    ((updateComplaint db uid cid upd now).2 = none ↔
      ∃ p ∈ db.profiles, p.user_id = uid ∧ (p.role = Role.authority ∨ p.role = Role.admin)) ∧
    ((updateComplaint db uid cid upd now).2 ≠ none →
      (updateComplaint db uid cid upd now).1 = db) ∧
    ∀ (dbt : TextSchema.DB) (updt : TextSchema.ComplaintRow → TextSchema.ComplaintRow)
      (ct : TextSchema.ComplaintRow),
      dbt.complaints.find? (fun x => x.id == cid) = some ct →
      ((TextSchema.updateComplaint dbt uid cid updt now).2 = none ↔
        (∃ p ∈ dbt.profiles, p.id = ct.complainant_id ∧ p.user_id = uid) ∧
        ∃ p ∈ dbt.profiles,
          p.id = ({ updt ct with id := ct.id, updated_at := now } :
            TextSchema.ComplaintRow).complainant_id ∧ p.user_id = uid) := by
  unfold complaintById at hc
  have hpol : authoritiesCanUpdateComplaints db uid = true ↔
      ∃ p ∈ db.profiles, p.user_id = uid ∧ (p.role = Role.authority ∨ p.role = Role.admin) := by
    simp [authoritiesCanUpdateComplaints, List.any_eq_true]
  refine ⟨?_, ?_, ?_⟩
  · unfold updateComplaint
    rw [hc]
    dsimp only
    by_cases hp : authoritiesCanUpdateComplaints db uid = true
    · rw [if_pos hp]
      simp [hpol.mp hp]
    · rw [if_neg hp]
      constructor
      · intro habs; simp at habs
      · intro hex; exact absurd (hpol.mpr hex) hp
  · unfold updateComplaint
    rw [hc]
    dsimp only
    by_cases hp : authoritiesCanUpdateComplaints db uid = true
    · rw [if_pos hp]
      intro habs; simp at habs
    · rw [if_neg hp]
      intro _; rfl
  · intro dbt updt ct hfind
    have htpol : ∀ c0 : TextSchema.ComplaintRow,
        TextSchema.complainantsCanUpdateComplaints dbt uid c0 = true ↔
          ∃ p ∈ dbt.profiles, p.id = c0.complainant_id ∧ p.user_id = uid := by
      intro c0
      simp [TextSchema.complainantsCanUpdateComplaints, List.any_eq_true]
    unfold TextSchema.updateComplaint
    rw [hfind]
    dsimp only
    by_cases hp : TextSchema.complainantsCanUpdateComplaints dbt uid ct = true
    · rw [if_pos hp]
      by_cases hp2 : TextSchema.complainantsCanUpdateComplaints dbt uid
          { updt ct with id := ct.id, updated_at := now } = true
      · rw [if_pos hp2]
        simp [(htpol ct).mp hp, (htpol _).mp hp2]
      · rw [if_neg hp2]
        constructor
        · intro habs; simp at habs
        · intro hex; exact absurd ((htpol _).mpr hex.2) hp2
    · rw [if_neg hp]
      constructor
      · intro habs; simp at habs
      · intro hex; exact absurd ((htpol ct).mpr hex.1) hp

/-- C5 witness: under the enum schema the authority caller 43 may update
complaint 1 while the consumer owner 42 is rejected with the state
unchanged; under the text schema the owner 42 completes a status-only
update of their complaint but is rejected when the update reassigns
`complainant_id` to profile 9, which they do not own. -/
theorem complaint_update_allowed_iff_witness :
    (updateComplaint dbComplaint 43 1 investigate 99).2 = none ∧
    (updateComplaint dbComplaint 42 1 investigate 99).1 = dbComplaint ∧
    (TextSchema.updateComplaint dbText 42 1
      (fun x => { x with status := "investigating" }) 99).2 = none ∧
    (TextSchema.updateComplaint dbText 42 1
      (fun x => { x with complainant_id := 9 }) 99).2 ≠ none := by
  have h43 := complaint_update_allowed_iff dbComplaint 43 1 investigate 99 c1 rfl
  have h42 := complaint_update_allowed_iff dbComplaint 42 1 investigate 99 c1 rfl
  refine ⟨h43.1.mpr ⟨p8, by decide, rfl, Or.inl rfl⟩, h42.2.1 (by decide), ?_, ?_⟩
  · exact (h42.2.2 dbText (fun x => { x with status := "investigating" }) tC1 rfl).mpr
      ⟨by decide, by decide⟩
  · intro hnone
    exact absurd ((h42.2.2 dbText (fun x => { x with complainant_id := 9 }) tC1 rfl).mp
      hnone).2 (by decide)

/-- C6 counterexample: an authority sets complaint 1's status to resolved;
the update completes and leaves a complaint whose status is terminal while
`resolved_at` is still NULL, so the claimed iff does not survive updates. -/
theorem resolved_status_with_null_resolved_at :
    (updateComplaint dbComplaint 43 1 resolve 99).2 = none ∧
    complaintById (updateComplaint dbComplaint 43 1 resolve 99).1 1 = some c1resolved ∧
    c1resolved.status = ComplaintStatus.resolved ∧
    c1resolved.resolved_at = none :=
  ⟨rfl, rfl, rfl, rfl⟩

theorem updateComplaint_setStatus_resolved_at (db : DB) (uid cid now : Nat)
    (s : ComplaintStatus) :
    ((updateComplaint db uid cid (fun x => { x with status := s }) now).1.complaints.map
      (fun c => c.resolved_at)) = db.complaints.map (fun c => c.resolved_at) := by
  unfold updateComplaint
  cases hfind : db.complaints.find? (fun c => c.id == cid) with
  | none => rfl
  | some c0 =>
    dsimp only
    by_cases hp : authoritiesCanUpdateComplaints db uid = true
    · rw [if_pos hp]
      dsimp only
      rw [List.map_map]
      apply List.map_congr_left
      intro x _
      by_cases hx : (x.id == cid) = true <;> simp [Function.comp, hx]
    · rw [if_neg hp]

/-- C6 corrected: complaints created through the filing path start with
status pending and NULL `resolved_at`, satisfying the invariant at insert;
but no operation couples `resolved_at` to status — a status-only update
leaves every row's `resolved_at` unchanged — so a terminal status with NULL
`resolved_at` is reachable and the iff fails after such updates. -/
theorem complaint_resolved_at_unmanaged (db : DB) (uid complainant : Nat)
    (vendor : Option Nat) (area : Nat) (category : ComplaintCategory)
    (title description : String) (priority : Int) (cid now : Nat) (db' : DB)
    (h : fileComplaint db uid complainant vendor area category title description
      priority cid now = (db', none)) :
    (∀ c ∈ db'.complaints, c ∉ db.complaints →
      c.status = ComplaintStatus.pending ∧ c.resolved_at = none) ∧
    ∀ (uid2 cid2 now2 : Nat) (s : ComplaintStatus),
      ((updateComplaint db' uid2 cid2 (fun x => { x with status := s }) now2).1.complaints.map
        (fun c => c.resolved_at)) = db'.complaints.map (fun c => c.resolved_at) := by
  unfold fileComplaint at h
  split at h
  · simp at h
  · obtain ⟨h1, -⟩ := Prod.mk.injEq .. ▸ h
    subst h1
    constructor
    · intro c hc hnot
      dsimp only at hc
      rcases List.mem_append.mp hc with hold | hnew
      · exact absurd hold hnot
      · rcases List.mem_singleton.mp hnew with rfl
        exact ⟨rfl, rfl⟩
    · intro uid2 cid2 now2 s
      exact updateComplaint_setStatus_resolved_at _ uid2 cid2 now2 s

/-- C6 witness: filing a complaint and then setting its status to resolved
leaves the `resolved_at` column of every complaint row exactly as it was
after the insert. -/
theorem complaint_resolved_at_unmanaged_witness :
    ((updateComplaint
        (fileComplaint dbIns 42 7 (some 1) 3 ComplaintCategory.hygiene "Dirty stall" "d" 1 5 50).1
        43 5 (fun x => { x with status := ComplaintStatus.resolved }) 99).1.complaints.map
      (fun c => c.resolved_at)) =
    (fileComplaint dbIns 42 7 (some 1) 3 ComplaintCategory.hygiene "Dirty stall" "d" 1 5 50).1.complaints.map
      (fun c => c.resolved_at) := by
  have h := complaint_resolved_at_unmanaged dbIns 42 7 (some 1) 3 ComplaintCategory.hygiene
    "Dirty stall" "d" 1 5 50
    (fileComplaint dbIns 42 7 (some 1) 3 ComplaintCategory.hygiene "Dirty stall" "d" 1 5 50).1 rfl
  exact h.2 43 5 99 ComplaintStatus.resolved

/-- C8 counterexample: under the enum schema the complaints foreign key
declares no ON DELETE action, so deleting vendor 1 — referenced by
complaint 1 — is rejected outright instead of nulling out the reference. -/
theorem enum_schema_vendor_delete_rejected :
    dbComplaint.complaints.any (fun c => c.vendor_id == some 1) = true ∧
    deleteVendor dbComplaint 1 = (dbComplaint, some DbError.FKViolation) :=
  ⟨rfl, rfl⟩

/-- C8 corrected: under the text schema (ON DELETE SET NULL on
`complaints.vendor_id`, ON DELETE CASCADE on `ratings.vendor_id`) a vendor
delete always succeeds; no complaint row is deleted; every complaint that
referenced the vendor survives with `vendor_id` nulled, `updated_at`
refreshed by the update trigger and all other fields unchanged; complaints
not referencing it are untouched. -/
theorem text_schema_vendor_delete_nulls (db : TextSchema.DB) (v now : Nat) :
    (∀ w ∈ (TextSchema.deleteVendor db v now).vendors, w.id ≠ v) ∧
    (TextSchema.deleteVendor db v now).complaints.length = db.complaints.length ∧
    ∀ c ∈ db.complaints,
      (c.vendor_id = some v →
        ({ c with vendor_id := none, updated_at := now } : TextSchema.ComplaintRow) ∈
          (TextSchema.deleteVendor db v now).complaints) ∧
      (c.vendor_id ≠ some v → c ∈ (TextSchema.deleteVendor db v now).complaints) := by
  refine ⟨?_, ?_, ?_⟩
  · intro w hw
    simp only [TextSchema.deleteVendor, List.mem_filter] at hw
    simpa using hw.2
  · simp [TextSchema.deleteVendor]
  · intro c hcmem
    constructor
    · intro hv
      refine List.mem_map.mpr ⟨c, hcmem, ?_⟩
      simp [hv]
    · intro hv
      refine List.mem_map.mpr ⟨c, hcmem, ?_⟩
      have hb : (c.vendor_id == some v) = false := by
        simpa using hv
      simp [hb]

/-- C8 witness: deleting vendor 1 from the text-schema state keeps both
facts concrete: the complaint count is preserved and complaint 1 survives
with its vendor reference nulled and timestamp refreshed. -/
theorem text_schema_vendor_delete_nulls_witness :
    (TextSchema.deleteVendor dbText 1 77).complaints.length = dbText.complaints.length ∧
    ({ tC1 with vendor_id := none, updated_at := 77 } : TextSchema.ComplaintRow) ∈
      (TextSchema.deleteVendor dbText 1 77).complaints := by
  have h := text_schema_vendor_delete_nulls dbText 1 77
  exact ⟨h.2.1, (h.2.2 tC1 (by decide)).1 rfl⟩

/-- C9 counterexample: with a stray profile already occupying
`user_id = 42`, the provisioning insert hits the profiles UNIQUE constraint;
the trigger has no exception handler, so the signup is aborted and the
identity row is not created — profile-creation errors do fail identity
creation. -/
theorem profile_error_aborts_signup :
    TextSchema.signup dbStray u42 = (dbStray, some DbError.ConflictError) ∧
    (TextSchema.signup dbStray u42).1.users = [] := by decide

/-- C9 corrected: a completed signup provisions exactly one profile for the
new identity — metadata name with 'User' fallback, the identity's phone,
user type consumer, no area; but when the profile insert errors, the signup
aborts rather than completing without a profile. -/
theorem signup_provisions_single_profile (db db' : TextSchema.DB) (u : TextSchema.UserRow)
    (h : TextSchema.signup db u = (db', none)) :
    u ∈ db'.users ∧
    (db'.profiles.filter (fun p => p.user_id == u.id)).length = 1 ∧
    ∀ p ∈ db'.profiles, p.user_id = u.id →
      p.full_name = u.full_name_meta.getD "User" ∧ p.phone = u.phone ∧
      p.user_type = "consumer" ∧ p.area_id = none := by
  unfold TextSchema.signup at h
  split at h
  · simp at h
  · unfold TextSchema.handle_new_user at h
    split at h
    · rename_i db2 heq
      obtain ⟨rfl, -⟩ := Prod.mk.injEq .. ▸ h
      split at heq
      · simp at heq
      · rename_i hany
        obtain ⟨h1, -⟩ := Prod.mk.injEq .. ▸ heq
        subst h1
        have hnone : ∀ p ∈ db.profiles, ¬ (p.user_id == u.id) = true := by
          intro p hp hpe
          exact hany (List.any_eq_true.mpr ⟨p, hp, hpe⟩)
        refine ⟨?_, ?_, ?_⟩
        · dsimp only
          exact List.mem_append.mpr (Or.inr (List.mem_singleton.mpr rfl))
        · dsimp only
          rw [List.filter_append, List.filter_eq_nil_iff.mpr hnone]
          simp
        · intro p hp hpid
          dsimp only at hp
          rcases List.mem_append.mp hp with hold | hnew
          · exact absurd (by simp [hpid]) (hnone p hold)
          · rcases List.mem_singleton.mp hnew with rfl
            exact ⟨rfl, rfl, rfl, rfl⟩
    · simp at h

/-- C9 witness: signing up identity 42 in the empty state creates the user
row and exactly one profile, with the supplied name, the identity's phone,
user type consumer and no area. -/
theorem signup_provisions_single_profile_witness :
    u42 ∈ (TextSchema.signup dbEmpty u42).1.users ∧
    ((TextSchema.signup dbEmpty u42).1.profiles.filter
      (fun p => p.user_id == u42.id)).length = 1 ∧
    p42new.full_name = u42.full_name_meta.getD "User" ∧
    p42new.phone = u42.phone ∧ p42new.user_type = "consumer" ∧ p42new.area_id = none := by
  have h := signup_provisions_single_profile dbEmpty (TextSchema.signup dbEmpty u42).1 u42 rfl
  have hp := h.2.2 p42new (by decide) rfl
  exact ⟨h.1, h.2.1, hp.1, hp.2.1, hp.2.2.1, hp.2.2.2⟩

theorem foldl_rating_sum (l : List RatingRow) (a : ℚ) :
    l.foldl (fun sum r => sum + (r.rating : ℚ)) a =
      a + (((l.map (fun r => r.rating)).sum : ℤ) : ℚ) := by
  induction l generalizing a with
  | nil => simp
  | cons r t ih =>
    rw [List.foldl_cons, ih]
    push_cast [List.map_cons, List.sum_cons]
    ring

/-- C10: the vendor-list view recomputes the displayed statistics
client-side from the fetched rating rows — the total as their count, the
average as their exact, unrounded arithmetic mean (0 with no rows) — rather
than reading the stored columns; on ratings 4, 4, 5 the exact mean 13/3
differs from the one-decimal aggregate 4.3 the trigger stores. -/
theorem vendors_page_recomputes_stats :
    (∀ (ratings : List RatingRow) (v : Nat),
      VendorsPage.totalRatings ratings v = (ratingsOfVendor ratings v).length ∧
      VendorsPage.averageRating ratings v = specDisplayedAverage ratings v) ∧
    VendorsPage.averageRating c10ratings 1 = 13/3 ∧
    vendorById (update_vendor_rating c10ratings [v1] 1) 1 =
      some { v1 with average_rating := some (43/10), total_ratings := 3 } ∧
    (13 : ℚ)/3 ≠ 43/10 := by
  refine ⟨?_, ?_, ?_, by norm_num⟩
  · intro ratings v
    refine ⟨by simp [VendorsPage.totalRatings, ratingsOfVendor], ?_⟩
    unfold VendorsPage.averageRating specDisplayedAverage ratingsOfVendor
    dsimp only
    by_cases h : ratings.filter (fun r => r.vendor_id == v) = []
    · simp [h]
    · have hlen : 0 < (ratings.filter (fun r => r.vendor_id == v)).length :=
        List.length_pos.mpr h
      have hmapne : (ratings.filter (fun r => r.vendor_id == v)).map (fun r => r.rating) ≠ [] := by
        simpa using h
      rw [if_pos hlen, if_neg hmapne, foldl_rating_sum]
      simp
  · norm_num [VendorsPage.averageRating, c10ratings]
  · norm_num [vendorById, update_vendor_rating, recomputeVendor, ratingsOfVendor,
      c10ratings, v1, round1, List.find?]
